import Mathlib

/-!
Shallow embedding of the chord-detection core of the `chorddetector`
repository (JavaScript), together with theorems settling the frozen claims.

Conventions used throughout the embedding:
* JS numbers are modelled by `ℚ` where the source only performs field
  operations and comparisons, and by `ℝ` where it calls `Math.log2` or
  `Math.sqrt`.
* `Math.round x` rounds half toward `+∞`, i.e. it is `⌊x + 1/2⌋`.
* The JS remainder operator `%` takes the sign of the dividend; it is
  modelled by `jsRem`.
* `Array.prototype.sort` is a stable sort ordered by the comparator; it is
  modelled by `List.insertionSort` (which is stable).
* `[...new Set(xs)]` keeps the first occurrence of each element.
-/

attribute [local semireducible] Rat.mul Rat.inv Rat.add Rat.sub Rat.ofScientific

open Real in
/-- JS `Math.round` on reals: round half toward positive infinity. -/
noncomputable def jsRound (x : ℝ) : ℤ := ⌊x + 1/2⌋

/-- JS `Math.round` on rationals (used where no transcendental enters). -/
def jsRoundQ (q : ℚ) : ℤ := ⌊q + 1/2⌋

/-- JS `%` on integers: remainder taking the sign of the dividend. -/
def jsRem (a b : ℤ) : ℤ := if 0 ≤ a then a % b else -((-a) % b)

theorem jsRem_of_nonneg {a : ℤ} (b : ℤ) (h : 0 ≤ a) : jsRem a b = a % b :=
  if_pos h

theorem jsRem_emod_twelve (a : ℤ) : jsRem a 12 % 12 = a % 12 := by
  unfold jsRem; split <;> omega

theorem jsRem_twelve_lb (a : ℤ) : -11 ≤ jsRem a 12 := by
  unfold jsRem; split <;> omega

theorem jsRem_twelve_ub (a : ℤ) : jsRem a 12 ≤ 11 := by
  unfold jsRem; split <;> omega

/-- First-occurrence deduplication, as performed by `[...new Set(xs)]`. -/
def uniqFirstAux (seen : List String) : List String → List String
  | [] => []
  | a :: rest =>
    if a ∈ seen then uniqFirstAux seen rest
    else a :: uniqFirstAux (a :: seen) rest

/-- `[...new Set(xs)]`: drop duplicates, keeping first occurrences. -/
def uniqFirst (l : List String) : List String := uniqFirstAux [] l

/-- JS string `<`: lexicographic comparison of UTF-16 code units (all note
and chord names here are ASCII, where code units coincide with code
points). -/
def charListLt : List Char → List Char → Bool
  | _, [] => false
  | [], _ => true
  | x :: xs, y :: ys =>
    if x.val < y.val then true
    else if y.val < x.val then false
    else charListLt xs ys

/-- JS `a <= b` on strings. -/
def jsStrLe (a b : String) : Bool := !(charListLt b.data a.data)

/-- JS default `Array.sort()` on strings: stable, ascending lexicographic.
A stable sort is modelled by insertion sort. -/
def jsSortStr (l : List String) : List String :=
  l.insertionSort (fun a b => jsStrLe a b = true)

/-- JS `s.split(',')`. -/
def splitCommaAux (cur : List Char) : List Char → List String
  | [] => [String.mk cur.reverse]
  | c :: rest =>
    if c = ',' then String.mk cur.reverse :: splitCommaAux [] rest
    else splitCommaAux (c :: cur) rest

/-- JS `s.split(',')` (no separator limit; `','` never begins or ends the
keys used here). -/
def splitComma (s : String) : List String := splitCommaAux [] s.data

/-- JS numeric ascending `sort((a,b) => a-b)` on rationals. -/
def jsSortQ (l : List ℚ) : List ℚ :=
  l.insertionSort (fun a b => a ≤ b)

/-- Differences of consecutive elements of a list. -/
def consecutiveDiffs : List ℚ → List ℚ
  | a :: b :: rest => (b - a) :: consecutiveDiffs (b :: rest)
  | _ => []

namespace ChordDetector
/-!  Embedding of `src/chord-detector.js` (class `ChordDetector`). -/

/-- The fixed 12-name pitch-class table shared by every front end. -/
def noteNames : List String :=
  ["C", "C#", "D", "D#"] ++ ["E", "F", "F#", "G"] ++ ["G#", "A", "A#", "B"]

/-- `noteNumber = 12 * Math.log2(frequency / A4)` with `A4 = 440`. -/
noncomputable def noteNumber (f : ℝ) : ℝ := 12 * Real.logb 2 (f / 440)

/-- `noteIndex = Math.round(noteNumber) % 12` (JS remainder). -/
noncomputable def noteIdx (f : ℝ) : ℤ := jsRem (jsRound (noteNumber f)) 12

/-- The index `(noteIndex + 12) % 12` used to read `noteNames`. -/
noncomputable def pitchIdx (f : ℝ) : ℤ := jsRem (noteIdx f + 12) 12

/-- `frequencyToNoteWithOctave`: note name and octave of a frequency. -/
noncomputable def frequencyToNoteWithOctave (f : ℝ) : String × ℤ :=
  (noteNames.getD (pitchIdx f).toNat ("?"), ⌊noteNumber f / 12⌋ + 4)

end ChordDetector

namespace BrowserChordDetector
/-!  Embedding of the first unnamed source file (class `BrowserChordDetector`). -/

/-- `frequencyToChromaIndex`: MIDI note number rounded, then `% 12`. -/
noncomputable def frequencyToChromaIndex (f : ℝ) : ℤ :=
  jsRem (jsRound (69 + 12 * Real.logb 2 (f / 440))) 12

end BrowserChordDetector

section PitchLemmas

theorem jsRound_int_add (n : ℤ) (x : ℝ) : jsRound ((n : ℝ) + x) = n + jsRound x := by
  unfold jsRound
  rw [add_assoc, Int.floor_int_add]

theorem jsRound_intCast (n : ℤ) : jsRound (n : ℝ) = n := by
  have h : jsRound ((n : ℝ) + 0) = n + jsRound 0 := jsRound_int_add n 0
  have h0 : jsRound (0 : ℝ) = 0 := by
    unfold jsRound
    rw [zero_add]
    rw [show ((1 : ℝ)/2) = (2 : ℝ)⁻¹ by norm_num]
    exact Int.floor_eq_zero_iff.mpr (by constructor <;> norm_num)
  rw [add_zero] at h
  rw [h, h0, add_zero]

/-- Lower bound for the rounded note number on the musical band. -/
theorem jsRound_noteNumber_lb {f : ℝ} (h1 : 65 < f) :
    -36 ≤ jsRound (ChordDetector.noteNumber f) := by
  have hf0 : (0 : ℝ) < f := by linarith
  have hq : (1 : ℝ) / 8 ≤ f / 440 := by
    rw [div_le_div_iff (by norm_num) (by norm_num)]
    linarith
  have hlog8 : Real.logb 2 ((1 : ℝ) / 8) = -3 := by
    rw [show ((1 : ℝ) / 8) = ((2 : ℝ) ^ (3 : ℕ))⁻¹ by norm_num,
      Real.logb_inv, Real.logb_pow, Real.logb_self_eq_one (by norm_num)]
    norm_num
  have hmono : Real.logb 2 ((1 : ℝ) / 8) ≤ Real.logb 2 (f / 440) :=
    Real.logb_le_logb_of_le (by norm_num) (by norm_num) hq
  have hnn : (-36 : ℝ) ≤ ChordDetector.noteNumber f := by
    unfold ChordDetector.noteNumber
    rw [hlog8] at hmono
    linarith
  unfold jsRound
  exact Int.le_floor.mpr (by push_cast; linarith)

end PitchLemmas

/-- C1: the chroma front end and the peak-based pitch classifier do NOT
assign the same pitch-class index: at 440 Hz the chroma index is 9 (`A`)
while the peak classifier's index is 0 (`C`). -/
theorem chroma_vs_peak_index_counterexample :
    BrowserChordDetector.frequencyToChromaIndex 440 ≠ ChordDetector.pitchIdx 440 ∧
    (65 : ℝ) < 440 ∧ (440 : ℝ) < 1000 := by
  have hlog : Real.logb 2 ((440 : ℝ) / 440) = 0 := by
    rw [div_self (by norm_num : (440 : ℝ) ≠ 0)]
    exact Real.logb_one
  have hchroma : BrowserChordDetector.frequencyToChromaIndex 440 = 9 := by
    unfold BrowserChordDetector.frequencyToChromaIndex
    rw [hlog, mul_zero, add_zero,
      show (69 : ℝ) = ((69 : ℤ) : ℝ) by norm_num, jsRound_intCast]
    decide
  have hnn : ChordDetector.noteNumber 440 = 0 := by
    unfold ChordDetector.noteNumber
    rw [hlog, mul_zero]
  have hpeak : ChordDetector.pitchIdx 440 = 0 := by
    unfold ChordDetector.pitchIdx ChordDetector.noteIdx
    rw [hnn, show (0 : ℝ) = ((0 : ℤ) : ℝ) by norm_num, jsRound_intCast]
    decide
  refine ⟨?_, by norm_num, by norm_num⟩
  rw [hchroma, hpeak]
  decide

/-- C1 (amended): on the chroma band 65 < f < 1000, the chroma index equals
the peak classifier's pitch-class index shifted by the constant 9 (mod 12):
the peak-based classifier omits the MIDI offset 69 ≡ 9 (mod 12). -/
theorem chroma_vs_peak_index (f : ℝ) (h1 : 65 < f) (h2 : f < 1000) :
    BrowserChordDetector.frequencyToChromaIndex f =
      jsRem (ChordDetector.pitchIdx f + 9) 12 := by
  have hr := jsRound_noteNumber_lb h1
  set r := jsRound (ChordDetector.noteNumber f) with hrdef
  have hchroma : BrowserChordDetector.frequencyToChromaIndex f = (69 + r) % 12 := by
    unfold BrowserChordDetector.frequencyToChromaIndex
    rw [show (69 : ℝ) + 12 * Real.logb 2 (f / 440) =
        ((69 : ℤ) : ℝ) + ChordDetector.noteNumber f by
      unfold ChordDetector.noteNumber; push_cast; ring]
    rw [jsRound_int_add, ← hrdef, jsRem_of_nonneg _ (by omega)]
  have hpeak : ChordDetector.pitchIdx f = r % 12 := by
    unfold ChordDetector.pitchIdx ChordDetector.noteIdx
    rw [← hrdef]
    have hlb := jsRem_twelve_lb r
    have hub := jsRem_twelve_ub r
    have hmod := jsRem_emod_twelve r
    rw [jsRem_of_nonneg _ (by omega)]
    omega
  rw [hchroma, hpeak]
  have hnn : 0 ≤ r % 12 := Int.emod_nonneg r (by norm_num)
  rw [jsRem_of_nonneg _ (by omega)]
  omega

/-- C1 witness: the amended relation instantiated at 440 Hz. -/
theorem chroma_vs_peak_index_witness :
    BrowserChordDetector.frequencyToChromaIndex 440 =
      jsRem (ChordDetector.pitchIdx 440 + 9) 12 :=
  chroma_vs_peak_index 440 (by norm_num) (by norm_num)

section SemitoneRoundTrip

theorem floor_intCast_div_twelve (k : ℤ) : ⌊((k : ℝ)) / 12⌋ = k / 12 := by
  have hlo : 0 ≤ k % 12 := Int.emod_nonneg k (by norm_num)
  have hhi : k % 12 < 12 := Int.emod_lt_of_pos k (by norm_num)
  have hdecomp : (k : ℝ) / 12 = ((k / 12 : ℤ) : ℝ) + ((k % 12 : ℤ) : ℝ) / 12 := by
    have hk : ((12 * (k / 12) + k % 12 : ℤ) : ℝ) = (k : ℝ) := by
      exact_mod_cast congrArg Int.cast (Int.ediv_add_emod k 12)
    push_cast at hk
    field_simp
    linarith
  rw [hdecomp, Int.floor_int_add]
  have hz : ⌊((k % 12 : ℤ) : ℝ) / 12⌋ = 0 := by
    rw [Int.floor_eq_zero_iff]
    constructor
    · positivity
    · rw [div_lt_one (by norm_num)]
      exact_mod_cast hhi
  rw [hz, add_zero]

/-- C6: classifying `440 * 2^(k/12)` yields the name-table entry at index
`((k mod 12) + 12) mod 12` (i.e. pitch class `k mod 12`) and octave
`floor(k/12) + 4`. -/
theorem classify_semitone (k : ℤ) (hlo : -48 ≤ k) (hhi : k ≤ 48) :
    ChordDetector.frequencyToNoteWithOctave (440 * (2 : ℝ) ^ ((k : ℝ) / 12)) =
      (ChordDetector.noteNames.getD ((k % 12 + 12) % 12).toNat ("?"), k / 12 + 4) := by
  have hnn : ChordDetector.noteNumber (440 * (2 : ℝ) ^ ((k : ℝ) / 12)) = (k : ℝ) := by
    unfold ChordDetector.noteNumber
    rw [mul_div_cancel_left₀ _ (by norm_num : (440 : ℝ) ≠ 0),
      Real.logb_rpow (by norm_num) (by norm_num)]
    field_simp
  unfold ChordDetector.frequencyToNoteWithOctave ChordDetector.pitchIdx
    ChordDetector.noteIdx
  rw [hnn, jsRound_intCast, floor_intCast_div_twelve]
  have hlb := jsRem_twelve_lb k
  have hub := jsRem_twelve_ub k
  have hmod := jsRem_emod_twelve k
  have hidx : jsRem (jsRem k 12 + 12) 12 = (k % 12 + 12) % 12 := by
    rw [jsRem_of_nonneg _ (by omega)]
    omega
  rw [hidx]

/-- C6 witness: the round-trip at semitone offset 0 (A4 itself). -/
theorem classify_semitone_witness :
    ChordDetector.frequencyToNoteWithOctave (440 * (2 : ℝ) ^ (((0 : ℤ) : ℝ) / 12)) =
      (ChordDetector.noteNames.getD (((0 : ℤ) % 12 + 12) % 12).toNat ("?"),
        (0 : ℤ) / 12 + 4) :=
  classify_semitone 0 (by decide) (by decide)

end SemitoneRoundTrip

namespace ChordDetector

/-- A detected note with octave, as produced by `frequencyToNoteWithOctave`. -/
structure NWO where
  note : String
  octave : ℤ
deriving DecidableEq

/-- A chord candidate of `chord-detector.js`: the returned objects carry
only a name and a confidence. -/
structure Cand where
  name : String
  confidence : ℚ
deriving DecidableEq

/-- The `chordPatterns` table of `identifyChordWithTemporalAnalysis`,
in JS object-insertion order. -/
def chordPatterns : List (String × Cand) :=
  [ ("C,E,G", ⟨"C", 9/10⟩), ("C#,F,G#", ⟨"C#", 9/10⟩), ("D,F#,A", ⟨"D", 9/10⟩),
    ("D#,G,A#", ⟨"D#", 9/10⟩), ("E,G#,B", ⟨"E", 9/10⟩), ("F,A,C", ⟨"F", 9/10⟩),
    ("F#,A#,C#", ⟨"F#", 9/10⟩), ("G,B,D", ⟨"G", 9/10⟩), ("G#,C,D#", ⟨"G#", 9/10⟩),
    ("A,C#,E", ⟨"A", 9/10⟩), ("A#,D,F", ⟨"A#", 9/10⟩), ("B,D#,F#", ⟨"B", 9/10⟩),
    ("C,Eb,G", ⟨"Cm", 8/10⟩), ("C#,E,G#", ⟨"C#m", 8/10⟩), ("D,F,A", ⟨"Dm", 8/10⟩),
    ("D#,F#,A#", ⟨"D#m", 8/10⟩), ("E,G,B", ⟨"Em", 8/10⟩), ("F,Ab,C", ⟨"Fm", 8/10⟩),
    ("F#,A,C#", ⟨"F#m", 8/10⟩), ("G,Bb,D", ⟨"Gm", 8/10⟩), ("G#,B,D#", ⟨"G#m", 8/10⟩),
    ("A,C,E", ⟨"Am", 8/10⟩), ("A#,C#,F", ⟨"A#m", 8/10⟩), ("B,D,F#", ⟨"Bm", 8/10⟩) ]

/-- The partial-match loop: first pattern sharing at least 2 notes wins,
with confidence scaled by 0.7. -/
def partialMatch (uniqueNotes : List String) : List (String × Cand) → Option Cand
  | [] => none
  | (key, c) :: rest =>
    let patternNotes := splitComma key
    let matchingNotes := uniqueNotes.filter (fun n => n ∈ patternNotes)
    if 2 ≤ matchingNotes.length then some ⟨c.name, c.confidence * (7/10)⟩
    else partialMatch uniqueNotes rest

/-- `identifyChordWithTemporalAnalysis` (the `frequencies` parameter of the
source is unused by its body and omitted). -/
def identifyChordWithTemporalAnalysis (notesWithOctaves : List NWO) : Option Cand :=
  if notesWithOctaves.length < 2 then none
  else
    let uniqueNotes := jsSortStr (uniqFirst (notesWithOctaves.map NWO.note))
    let noteString := String.intercalate (",") uniqueNotes
    match chordPatterns.lookup noteString with
    | some c => some c
    | none =>
      if 2 ≤ uniqueNotes.length then
        match partialMatch uniqueNotes chordPatterns with
        | some c => some c
        | none => some ⟨uniqueNotes.getD 0 (""), 3/10⟩
      else some ⟨uniqueNotes.getD 0 (""), 3/10⟩

end ChordDetector

namespace ImprovedChordDetector
/-!  Embedding of `src/improved-chord-detector.js` (class
`ImprovedChordDetector`). -/

/-- A note produced by `peaksToNotes`. -/
structure DetNote where
  note : String
  octave : ℤ
  frequency : ℚ
  amplitude : ℚ
deriving DecidableEq

/-- A chord candidate of the improved detector. -/
structure ICand where
  name : String
  confidence : ℚ
  notes : List String
deriving DecidableEq

/-- `noteMap` of `notesToSemitones`. -/
def noteMap : List (String × ℤ) :=
  [ ("C", 0), ("C#", 1), ("Db", 1), ("D", 2), ("D#", 3), ("Eb", 3),
    ("E", 4), ("F", 5), ("F#", 6), ("Gb", 6), ("G", 7), ("G#", 8),
    ("Ab", 8), ("A", 9), ("A#", 10), ("Bb", 10), ("B", 11) ]

/-- `notesToSemitones`: unknown names become `none` (JS `undefined`/NaN,
which matches no interval below, as NaN equals nothing). -/
def notesToSemitones (notes : List String) : List (Option ℤ) :=
  notes.map (fun n => noteMap.lookup n)

/-- `semitoneToNoteName`. -/
def semitoneToNoteName (semitone : ℤ) : String :=
  ChordDetector.noteNames.getD semitone.toNat ("?")

/-- One interval pattern of `identifyChordByIntervals`. -/
structure IntervalPattern where
  pattern : List ℤ
  type : String
  confidence : ℚ

/-- The `chordPatterns` interval table, in source order. -/
def intervalPatterns : List IntervalPattern :=
  [ ⟨[0, 4, 7], "", 9/10⟩, ⟨[0, 3, 7], "m", 9/10⟩,
    ⟨[0, 4, 7, 11], "maj7", 8/10⟩, ⟨[0, 3, 7, 10], "m7", 8/10⟩,
    ⟨[0, 4, 7, 10], "7", 8/10⟩, ⟨[0, 2, 7], "sus2", 7/10⟩,
    ⟨[0, 5, 7], "sus4", 7/10⟩ ]

/-- Inner loop of `identifyChordByIntervals`: try each interval pattern
against the root-relative intervals; first with match ratio ≥ 0.75 wins.
(The source sorts the interval list ascending before the membership tests;
membership is invariant under that permutation.) -/
def tryPatterns (rootNote : ℤ) (intervals : List (Option ℤ)) (notes : List String) :
    List IntervalPattern → Option ICand
  | [] => none
  | p :: rest =>
    let matchingIntervals := p.pattern.filter (fun i => (some i) ∈ intervals)
    let matchRatio : ℚ := matchingIntervals.length / p.pattern.length
    if 3/4 ≤ matchRatio then
      some ⟨semitoneToNoteName (jsRem rootNote 12) ++ p.type,
        p.confidence * matchRatio, notes⟩
    else tryPatterns rootNote intervals notes rest

/-- Outer loop of `identifyChordByIntervals`: try every entry of the
semitone list as candidate root, in list order.  A root whose name was
unknown (`none`, JS NaN) yields NaN intervals, which match no pattern. -/
def tryRoots (semitones : List (Option ℤ)) (notes : List String) :
    List (Option ℤ) → Option ICand
  | [] => none
  | none :: rest => tryRoots semitones notes rest
  | some rootNote :: rest =>
    let intervals := semitones.map (Option.map (fun s => (s - rootNote + 12) % 12))
    match tryPatterns rootNote intervals notes intervalPatterns with
    | some c => some c
    | none => tryRoots semitones notes rest

/-- `identifyChordByIntervals`. -/
def identifyChordByIntervals (notes : List String) : Option ICand :=
  if notes.length < 3 then none
  else
    let semitones := notesToSemitones notes
    tryRoots semitones notes semitones

/-- The `chordPatterns` lookup table of `identifyChordByPattern`,
in JS object-insertion order (triads first, then the 7th chords). -/
def chordPatternsICD : List (String × String) :=
  [ ("C,E,G", "C"), ("C#,F,G#", "C#"), ("D,F#,A", "D"), ("D#,G,A#", "D#"),
    ("E,G#,B", "E"), ("F,A,C", "F"), ("F#,A#,C#", "F#"), ("G,B,D", "G"),
    ("G#,C,D#", "G#"), ("A,C#,E", "A"), ("A#,D,F", "A#"), ("B,D#,F#", "B"),
    ("C,Eb,G", "Cm"), ("C#,E,G#", "C#m"), ("D,F,A", "Dm"), ("D#,F#,A#", "D#m"),
    ("E,G,B", "Em"), ("F,Ab,C", "Fm"), ("F#,A,C#", "F#m"), ("G,Bb,D", "Gm"),
    ("G#,B,D#", "G#m"), ("A,C,E", "Am"), ("A#,C#,F", "A#m"), ("B,D,F#", "Bm"),
    ("C,E,G,Bb", "C7"), ("D,F#,A,C", "D7"), ("E,G#,B,D", "E7"),
    ("F,A,C,Eb", "F7"), ("G,B,D,F", "G7"), ("A,C#,E,G", "A7"),
    ("B,D#,F#,A", "B7") ]

/-- The 24 triad entries of the vocabulary. -/
def triadEntries : List (String × String) := chordPatternsICD.take 24

/-- Partial-match loop of `identifyChordByPattern`: 3 of 4 notes for
seventh chords, 2 of 3 for triads; confidence 0.7 × match ratio. -/
def partialMatchICD (uniqueNotes : List String) :
    List (String × String) → Option ICand
  | [] => none
  | (key, name) :: rest =>
    let patternNotes := splitComma key
    let matchingNotes := uniqueNotes.filter (fun n => n ∈ patternNotes)
    let minRequired : ℕ := if patternNotes.length = 4 then 3 else 2
    if minRequired ≤ matchingNotes.length then
      some ⟨name, (7/10) * (matchingNotes.length / patternNotes.length : ℚ),
        uniqueNotes⟩
    else partialMatchICD uniqueNotes rest

/-- `identifyChordByPattern`: exact joined-key lookup, then partial match. -/
def identifyChordByPattern (uniqueNotes : List String) : Option ICand :=
  let noteString := String.intercalate (",") uniqueNotes
  match chordPatternsICD.lookup noteString with
  | some name => some ⟨name, 9/10, uniqueNotes⟩
  | none => partialMatchICD uniqueNotes chordPatternsICD

/-- The sorted unique note names `[...new Set(notes.map(n => n.note))].sort()`. -/
def uniqueSorted (notes : List DetNote) : List String :=
  jsSortStr (uniqFirst (notes.map DetNote.note))

/-- The fallback `notes.reduce(...)`: strongest-amplitude note, keeping the
earlier one on ties. -/
def jsReduceStrongest (h : DetNote) (t : List DetNote) : DetNote :=
  t.foldl (fun strongest current =>
    if strongest.amplitude < current.amplitude then current else strongest) h

/-- `improvedChordIdentification`: intervals first, then pattern lookup,
then the strongest-note fallback with fixed confidence 0.4. -/
def improvedChordIdentification : List DetNote → Option ICand
  | [] => none
  | h :: t =>
    let uniqueNotes := uniqueSorted (h :: t)
    match identifyChordByIntervals uniqueNotes with
    | some c => some c
    | none =>
      match identifyChordByPattern uniqueNotes with
      | some c => some c
      | none => some ⟨(jsReduceStrongest h t).note, 4/10, uniqueNotes⟩

/-- A bare note used to feed key sets into the matcher in tests. -/
def mkNote (s : String) : DetNote := ⟨s, 4, 0, 1⟩

end ImprovedChordDetector

/-- C3 counterexample: the detected set {C,E,G,Bb} has the exact vocabulary
entry `C,E,G,Bb → C7`, yet the matcher returns "C" (confidence 0.9) because
the interval strategy runs BEFORE the exact-set lookup, and the exact lookup
joins the notes in sorted order ("Bb,C,E,G"), which can never equal the
root-ordered seventh-chord keys. -/
theorem exact_entry_shadowed :
    ImprovedChordDetector.improvedChordIdentification
        ((splitComma ("C,E,G,Bb")).map ImprovedChordDetector.mkNote) =
      some ⟨"C", 9/10, ["Bb", "C", "E", "G"]⟩ ∧
    ImprovedChordDetector.chordPatternsICD.lookup ("C,E,G,Bb") = some ("C7") ∧
    jsSortStr (splitComma ("C,E,G,Bb")) =
      ImprovedChordDetector.uniqueSorted
        ((splitComma ("C,E,G,Bb")).map ImprovedChordDetector.mkNote) ∧
    ("C" : String) ≠ "C7" := by
  refine ⟨by decide, by decide, by decide, by decide⟩

/-- C3 (amended): the improved matcher tries the interval-pattern strategy
FIRST and consults the exact-set/partial lookup only when it fails (first
success wins); for every exact triad entry of the vocabulary the returned
name and confidence still coincide with that entry's (0.9), while
seventh-chord exact entries can be shadowed. -/
theorem improved_matcher_priority :
    (∀ (notes : List ImprovedChordDetector.DetNote)
       (c : ImprovedChordDetector.ICand), notes ≠ [] →
       ImprovedChordDetector.identifyChordByIntervals
           (ImprovedChordDetector.uniqueSorted notes) = some c →
       ImprovedChordDetector.improvedChordIdentification notes = some c) ∧
    (∀ (notes : List ImprovedChordDetector.DetNote)
       (c : ImprovedChordDetector.ICand), notes ≠ [] →
       ImprovedChordDetector.identifyChordByIntervals
           (ImprovedChordDetector.uniqueSorted notes) = none →
       ImprovedChordDetector.identifyChordByPattern
           (ImprovedChordDetector.uniqueSorted notes) = some c →
       ImprovedChordDetector.improvedChordIdentification notes = some c) ∧
    (ImprovedChordDetector.triadEntries.all (fun p =>
       ImprovedChordDetector.improvedChordIdentification
           ((splitComma p.1).map ImprovedChordDetector.mkNote) =
         some ⟨p.2, 9/10, ImprovedChordDetector.uniqueSorted
           ((splitComma p.1).map ImprovedChordDetector.mkNote)⟩) = true) := by
  refine ⟨?_, ?_, by decide⟩
  · intro notes c hne hint
    match notes with
    | [] => exact absurd rfl hne
    | h :: t =>
      simp only [ImprovedChordDetector.improvedChordIdentification, hint]
  · intro notes c hne hint hpat
    match notes with
    | [] => exact absurd rfl hne
    | h :: t =>
      simp only [ImprovedChordDetector.improvedChordIdentification, hint, hpat]

/-- C3 witness: for the exact triad set {C,E,G} the interval strategy
succeeds with the exact entry's name and confidence and the matcher
returns it. -/
theorem improved_matcher_priority_witness :
    ImprovedChordDetector.improvedChordIdentification
        [ImprovedChordDetector.mkNote ("C"), ImprovedChordDetector.mkNote ("E"),
         ImprovedChordDetector.mkNote ("G")] =
      some ⟨"C", 9/10, ["C", "E", "G"]⟩ :=
  improved_matcher_priority.1 _ _ (by decide) (by decide)

/-- C4: on its own front end's sharp spelling {C, D#, G},
`identifyChordWithTemporalAnalysis` misses the minor-chord entry (whose key
is spelled "C,Eb,G") and degrades to the partial match "C" with confidence
0.63 < 0.75; only the flat spelling (which that front end never emits)
exact-matches "Cm", while the improved interval matcher handles both. -/
theorem minor_spelling_mismatch :
    ChordDetector.identifyChordWithTemporalAnalysis
        [⟨"C", 4⟩, ⟨"D#", 4⟩, ⟨"G", 4⟩] = some ⟨"C", 63/100⟩ ∧
    ChordDetector.identifyChordWithTemporalAnalysis
        [⟨"C", 4⟩, ⟨"Eb", 4⟩, ⟨"G", 4⟩] = some ⟨"Cm", 8/10⟩ ∧
    ImprovedChordDetector.improvedChordIdentification
        [⟨"C", 4, 261, 1⟩, ⟨"D#", 4, 311, 1⟩, ⟨"G", 4, 392, 1⟩] =
      some ⟨"Cm", 9/10, ["C", "D#", "G"]⟩ := by
  refine ⟨by decide, by decide, by decide⟩

/-- C5 counterexample: when no pattern qualifies, the matcher of
`chord-detector.js` returns the alphabetically FIRST unique note (here "C"),
not the strongest-amplitude one (its input carries no amplitudes at all —
"D" is listed first, as the note of the stronger, lower fundamental), and
its result carries no note set. -/
theorem fallback_not_strongest :
    ChordDetector.identifyChordWithTemporalAnalysis [⟨"D", 4⟩, ⟨"C", 4⟩] =
      some ⟨"C", 3/10⟩ ∧ ("C" : String) ≠ "D" := by
  refine ⟨by decide, by decide⟩

/-- C5 (amended): the improved matcher's fallback returns the
strongest-amplitude note with fixed confidence 0.4 carrying the unique note
set, and never fails on non-empty input; the matcher of `chord-detector.js`
never fails on inputs with ≥ 2 notes, but its fallback is the sorted-first
note with confidence 0.3 and no note set. -/
theorem matcher_graceful_fallback :
    (∀ (h : ImprovedChordDetector.DetNote)
       (t : List ImprovedChordDetector.DetNote),
       ImprovedChordDetector.identifyChordByIntervals
           (ImprovedChordDetector.uniqueSorted (h :: t)) = none →
       ImprovedChordDetector.identifyChordByPattern
           (ImprovedChordDetector.uniqueSorted (h :: t)) = none →
       ImprovedChordDetector.improvedChordIdentification (h :: t) =
         some ⟨(ImprovedChordDetector.jsReduceStrongest h t).note, 4/10,
           ImprovedChordDetector.uniqueSorted (h :: t)⟩) ∧
    (∀ notes : List ImprovedChordDetector.DetNote, notes ≠ [] →
       ImprovedChordDetector.improvedChordIdentification notes ≠ none) ∧
    (∀ nwo : List ChordDetector.NWO, 2 ≤ nwo.length →
       ChordDetector.identifyChordWithTemporalAnalysis nwo ≠ none) := by
  refine ⟨?_, ?_, ?_⟩
  · intro h t hint hpat
    simp only [ImprovedChordDetector.improvedChordIdentification, hint, hpat]
  · intro notes hne
    match notes with
    | [] => exact absurd rfl hne
    | h :: t =>
      simp only [ImprovedChordDetector.improvedChordIdentification]
      split <;> simp
      split <;> simp
  · intro nwo h2
    unfold ChordDetector.identifyChordWithTemporalAnalysis
    split
    · omega
    · dsimp only
      split
      · simp
      · split
        · split <;> simp
        · simp

/-- C5 witness: on {C (amplitude 10), C# (amplitude 3)} no strategy
qualifies and the improved matcher returns the strongest note "C" with
confidence 0.4 and the unique note set. -/
theorem matcher_graceful_fallback_witness :
    ImprovedChordDetector.improvedChordIdentification
        [⟨"C", 4, 261, 10⟩, ⟨"C#", 4, 277, 3⟩] =
      some ⟨(ImprovedChordDetector.jsReduceStrongest ⟨"C", 4, 261, 10⟩
          [⟨"C#", 4, 277, 3⟩]).note, 4/10,
        ImprovedChordDetector.uniqueSorted
          [⟨"C", 4, 261, 10⟩, ⟨"C#", 4, 277, 3⟩]⟩ :=
  matcher_graceful_fallback.1 _ _ (by decide) (by decide)

namespace RealTimeChordDetector
/-!  Embedding of `src/real-time-chord-detector.js` (class
`RealTimeChordDetector`); its `addToChromaBuffer` and `stabilizeChord` are
duplicated verbatim in the `BrowserChordDetector` source, whose local
`chordMap`-based `getChordNotes` is used for the display-note fields. -/

/-- One entry of `chromaBuffer`. -/
structure RBuf where
  chord : String
  confidence : ℚ
  timestamp : ℚ
deriving DecidableEq

/-- An accepted chord candidate entering the stabilizer. -/
structure RCand where
  name : String
  confidence : ℚ
  notes : List String
deriving DecidableEq

/-- What one stabilizer step reports (the `stable` flag is set only on the
keep-current-chord path; display-only `fullNotes` are omitted). -/
structure RRep where
  name : String
  confidence : ℚ
  notes : List String
  stable : Bool
deriving DecidableEq

/-- The mutable detector fields used by buffering and stabilization. -/
structure RState where
  chromaBuffer : List RBuf
  currentChord : Option String
  chordConfidence : ℚ
  chordStability : ℤ
  consecutiveChanges : ℤ
deriving DecidableEq

/-- The `chordMap` note table of `getChordNotes`. -/
def chordMap : List (String × List String) :=
  [ ("C", ["C", "E", "G"]), ("C#", ["C#", "F", "G#"]), ("D", ["D", "F#", "A"]),
    ("D#", ["D#", "G", "A#"]), ("E", ["E", "G#", "B"]), ("F", ["F", "A", "C"]),
    ("F#", ["F#", "A#", "C#"]), ("G", ["G", "B", "D"]), ("G#", ["G#", "C", "D#"]),
    ("A", ["A", "C#", "E"]), ("A#", ["A#", "D", "F"]), ("B", ["B", "D#", "F#"]),
    ("Cm", ["C", "Eb", "G"]), ("C#m", ["C#", "E", "G#"]), ("Dm", ["D", "F", "A"]),
    ("D#m", ["D#", "F#", "A#"]), ("Em", ["E", "G", "B"]), ("Fm", ["F", "Ab", "C"]),
    ("F#m", ["F#", "A", "C#"]), ("Gm", ["G", "Bb", "D"]), ("G#m", ["G#", "B", "D#"]),
    ("Am", ["A", "C", "E"]), ("A#m", ["A#", "C#", "F"]), ("Bm", ["B", "D", "F#"]) ]

/-- `chordName.replace(/m$/, '')`: drop one trailing `'m'`. -/
def stripTrailingM (s : String) : String :=
  match s.data.reverse with
  | 'm' :: rest => String.mk rest.reverse
  | _ => s

/-- `getChordNotes`. -/
def getChordNotes (chordName : String) : List String :=
  (chordMap.lookup chordName).getD [stripTrailingM chordName]

/-- `getChordNotes` lifted to the nullable `currentChord` field (the JS
code would throw on `null`; that path is unreachable in the claims). -/
def getChordNotesOpt : Option String → List String
  | some c => getChordNotes c
  | none => []

/-- `addToChromaBuffer`: push the accepted candidate, then evict the oldest
entry when the cap `maxChromaBuffer = 8` is exceeded. -/
def addToChromaBuffer (buf : List RBuf) (chord : RCand) (t : ℚ) : List RBuf :=
  let b := buf ++ [⟨chord.name, chord.confidence, t⟩]
  if 8 < b.length then b.tail else b

/-- The vote window: buffer entries younger than 1000 ms. -/
def recentBuffer (buf : List RBuf) (t : ℚ) : List RBuf :=
  buf.filter (fun item => decide (t - item.timestamp < 1000))

/-- Sum of the confidences of a buffer slice (the `chordCounts` map sums
confidences per chord name; totals below sum its values). -/
def bufScore (buf : List RBuf) : ℚ :=
  buf.foldl (fun s item => s + item.confidence) 0

/-- The weighted votes for `name` inside the window. -/
def currentChordScore (buf : List RBuf) (t : ℚ) (name : String) : ℚ :=
  bufScore ((recentBuffer buf t).filter (fun item => item.chord == name))

/-- The total weighted votes inside the window. -/
def totalScore (buf : List RBuf) (t : ℚ) : ℚ :=
  bufScore (recentBuffer buf t)

/-- `dominanceRatio = currentChordScore / totalScore`. -/
def dominanceRatio (buf : List RBuf) (t : ℚ) (name : String) : ℚ :=
  currentChordScore buf t name / totalScore buf t

/-- `stabilizeChord`: the hysteresis step of the temporal stabilizer. -/
def stabilizeChord (st : RState) (newChord : RCand) (t : ℚ) : RState × RRep :=
  if totalScore st.chromaBuffer t = 0 then
    (st, ⟨newChord.name, newChord.confidence, newChord.notes, false⟩)
  else if st.currentChord = some newChord.name then
    ({ st with chordStability := min (st.chordStability + 1) 20,
               chordConfidence := max st.chordConfidence newChord.confidence },
     ⟨newChord.name, newChord.confidence, newChord.notes, false⟩)
  else if 3/5 ≤ dominanceRatio st.chromaBuffer t newChord.name then
    ({ st with currentChord := some newChord.name, chordStability := 1,
               chordConfidence := newChord.confidence, consecutiveChanges := 0 },
     ⟨newChord.name, newChord.confidence, newChord.notes, false⟩)
  else
    (st, ⟨st.currentChord.getD (""), st.chordConfidence,
      getChordNotesOpt st.currentChord, true⟩)

end RealTimeChordDetector

/-- C2: with a current chord A and an accepted different candidate B, a
dominance ratio < 0.6 leaves the whole state unchanged and re-reports A,
while a ratio ≥ 0.6 installs B with stability 1 and resets the
consecutive-change counter.  (`0 < totalScore` holds for every accepted
candidate, whose own fresh vote is already in the window.) -/
theorem stabilizeChord_transition (st : RealTimeChordDetector.RState)
    (A : String) (c : RealTimeChordDetector.RCand) (t : ℚ)
    (hA : st.currentChord = some A) (hne : c.name ≠ A)
    (hpos : 0 < RealTimeChordDetector.totalScore st.chromaBuffer t) :
    (RealTimeChordDetector.dominanceRatio st.chromaBuffer t c.name < 3/5 →
      RealTimeChordDetector.stabilizeChord st c t =
        (st, ⟨A, st.chordConfidence,
          RealTimeChordDetector.getChordNotes A, true⟩)) ∧
    (3/5 ≤ RealTimeChordDetector.dominanceRatio st.chromaBuffer t c.name →
      RealTimeChordDetector.stabilizeChord st c t =
        ({ st with currentChord := some c.name, chordStability := 1,
                   chordConfidence := c.confidence, consecutiveChanges := 0 },
         ⟨c.name, c.confidence, c.notes, false⟩)) := by
  have hzero : ¬ RealTimeChordDetector.totalScore st.chromaBuffer t = 0 :=
    ne_of_gt hpos
  have hcur : ¬ st.currentChord = some c.name := by
    rw [hA]
    intro h
    exact hne (Option.some_injective _ h.symm)
  constructor
  · intro hdom
    unfold RealTimeChordDetector.stabilizeChord
    rw [if_neg hzero, if_neg hcur, if_neg (not_le.mpr hdom), hA]
    rfl
  · intro hdom
    unfold RealTimeChordDetector.stabilizeChord
    rw [if_neg hzero, if_neg hcur, if_pos hdom]

/-- C2 witness: buffer votes C:0.8 and G:0.8 at t = 700 give G dominance
1/2 < 0.6, so the state is untouched and "C" is re-reported. -/
theorem stabilizeChord_transition_witness :
    RealTimeChordDetector.stabilizeChord
        ⟨[⟨"C", 4/5, 500⟩, ⟨"G", 4/5, 600⟩], some ("C"), 4/5, 6, 2⟩
        ⟨"G", 4/5, ["G", "B", "D"]⟩ 700 =
      (⟨[⟨"C", 4/5, 500⟩, ⟨"G", 4/5, 600⟩], some ("C"), 4/5, 6, 2⟩,
       ⟨"C", 4/5, RealTimeChordDetector.getChordNotes ("C"), true⟩) :=
  (stabilizeChord_transition
    ⟨[⟨"C", 4/5, 500⟩, ⟨"G", 4/5, 600⟩], some ("C"), 4/5, 6, 2⟩
    ("C") ⟨"G", 4/5, ["G", "B", "D"]⟩ 700 rfl (by decide) (by decide)).1
    (by decide)

/-- C10: pushing into the vote buffer preserves the 8-entry cap, evicting
the oldest entry when the buffer is full, so the window the stabilizer
tallies holds at most the 8 most recent accepted candidates; the
stabilizer itself never modifies the buffer. -/
theorem addToChromaBuffer_bounded (buf : List RealTimeChordDetector.RBuf)
    (c : RealTimeChordDetector.RCand) (t : ℚ) (h : buf.length ≤ 8) :
    (RealTimeChordDetector.addToChromaBuffer buf c t).length ≤ 8 ∧
    (buf.length = 8 →
      RealTimeChordDetector.addToChromaBuffer buf c t =
        buf.tail ++ [⟨c.name, c.confidence, t⟩]) ∧
    (∀ t2 : ℚ,
      (RealTimeChordDetector.recentBuffer
        (RealTimeChordDetector.addToChromaBuffer buf c t) t2).length ≤ 8) ∧
    (∀ (st : RealTimeChordDetector.RState)
       (ch : RealTimeChordDetector.RCand) (t3 : ℚ),
      (RealTimeChordDetector.stabilizeChord st ch t3).1.chromaBuffer =
        st.chromaBuffer) := by
  have hlen : (RealTimeChordDetector.addToChromaBuffer buf c t).length ≤ 8 := by
    unfold RealTimeChordDetector.addToChromaBuffer
    dsimp only
    split
    · simp only [List.length_tail, List.length_append, List.length_cons,
        List.length_nil]
      omega
    · next hgt =>
      simp only [List.length_append, List.length_cons, List.length_nil] at hgt ⊢
      omega
  refine ⟨hlen, ?_, ?_, ?_⟩
  · intro h8
    unfold RealTimeChordDetector.addToChromaBuffer
    dsimp only
    rw [if_pos (by simp [List.length_append, h8])]
    match buf, h8 with
    | b :: bs, _ => simp
  · intro t2
    exact le_trans (List.length_filter_le _ _) hlen
  · intro st ch t3
    unfold RealTimeChordDetector.stabilizeChord
    split
    · rfl
    · split
      · rfl
      · split <;> rfl

/-- C10 witness: a full 8-entry buffer stays at 8 entries and drops its
oldest entry on the next accepted candidate. -/
theorem addToChromaBuffer_bounded_witness :
    (RealTimeChordDetector.addToChromaBuffer
      [⟨"C", 4/5, 100⟩, ⟨"C", 4/5, 200⟩, ⟨"C", 4/5, 300⟩, ⟨"C", 4/5, 400⟩,
       ⟨"G", 4/5, 500⟩, ⟨"G", 4/5, 600⟩, ⟨"G", 4/5, 650⟩, ⟨"G", 4/5, 700⟩]
      ⟨"Am", 9/10, ["A", "C", "E"]⟩ 750).length ≤ 8 ∧
    RealTimeChordDetector.addToChromaBuffer
      [⟨"C", 4/5, 100⟩, ⟨"C", 4/5, 200⟩, ⟨"C", 4/5, 300⟩, ⟨"C", 4/5, 400⟩,
       ⟨"G", 4/5, 500⟩, ⟨"G", 4/5, 600⟩, ⟨"G", 4/5, 650⟩, ⟨"G", 4/5, 700⟩]
      ⟨"Am", 9/10, ["A", "C", "E"]⟩ 750 =
      [⟨"C", 4/5, 200⟩, ⟨"C", 4/5, 300⟩, ⟨"C", 4/5, 400⟩,
       ⟨"G", 4/5, 500⟩, ⟨"G", 4/5, 600⟩, ⟨"G", 4/5, 650⟩, ⟨"G", 4/5, 700⟩,
       ⟨"Am", 9/10, 750⟩] := by
  have h := addToChromaBuffer_bounded
    [⟨"C", 4/5, 100⟩, ⟨"C", 4/5, 200⟩, ⟨"C", 4/5, 300⟩, ⟨"C", 4/5, 400⟩,
     ⟨"G", 4/5, 500⟩, ⟨"G", 4/5, 600⟩, ⟨"G", 4/5, 650⟩, ⟨"G", 4/5, 700⟩]
    ⟨"Am", 9/10, ["A", "C", "E"]⟩ 750 (by decide)
  exact ⟨h.1, (h.2.1 (by decide)).trans (by decide)⟩

namespace AudioManager
/-!  Embedding of the BPM branch of `AudioManager.detectBPM` (third unnamed
source file).  `registerBeat` is the body executed once the RMS threshold
and the 80 ms refractory test have admitted a beat at time `t`. -/

/-- The BPM-related fields of `AudioManager`. -/
structure AState where
  beatHistory : List ℚ
  lastBeatTime : ℚ
  bpm : ℤ
  sampleInterval : ℚ
deriving DecidableEq

/-- Push the new beat, then keep only the last 4 seconds of timestamps. -/
def trailingHistory (st : AState) (t : ℚ) : List ℚ :=
  (st.beatHistory ++ [t]).filter (fun x => decide (t - 4000 < x))

/-- The consecutive inter-beat intervals of a history. -/
def beatIntervals (hist : List ℚ) : List ℚ := consecutiveDiffs hist

/-- `intervals[Math.floor(intervals.length / 2)]` after ascending sort. -/
def medianInterval (hist : List ℚ) : ℚ :=
  let sorted := jsSortQ (beatIntervals hist)
  sorted.getD (sorted.length / 2) 0

/-- `Math.round(60000 / medianInterval)`. -/
def calculatedBPM (st : AState) (t : ℚ) : ℤ :=
  jsRoundQ (60000 / medianInterval (trailingHistory st t))

/-- The beat-registered branch of `detectBPM`: update the history, then,
when at least two beats remain in the window, derive the BPM from the
median interval, accepting it only inside [40, 200]. -/
def registerBeat (st : AState) (t : ℚ) : AState :=
  let hist := trailingHistory st t
  let base : AState := { st with lastBeatTime := t, beatHistory := hist }
  if 2 ≤ hist.length then
    let cb := calculatedBPM st t
    if 40 ≤ cb ∧ cb ≤ 200 then
      { base with bpm := cb, sampleInterval := 60000 / (cb : ℚ) }
    else base
  else base

end AudioManager

/-- C9 counterexample: the computed BPM is NOT clamped to [40, 200] — from
history [0] and a beat at 100 ms the median interval 100 ms yields
round(60000/100) = 600, and the detector keeps its previous BPM 120 instead
of reporting the clamped value 200. -/
theorem detectBPM_no_clamping :
    AudioManager.calculatedBPM ⟨[0], 0, 120, 0⟩ 100 = 600 ∧
    (AudioManager.registerBeat ⟨[0], 0, 120, 0⟩ 100).bpm = 120 ∧
    (AudioManager.registerBeat ⟨[0], 0, 120, 0⟩ 100).bpm ≠ 200 := by
  refine ⟨by decide, by decide, by decide⟩

/-- C9 (amended): whenever a beat is registered and the trailing 4-second
history holds at least two timestamps, the BPM is derived as
round(60000 / median inter-beat interval) and the sampling interval set to
60000/BPM ms — but only when that BPM lies in [40, 200]; out-of-range
values are discarded (previous BPM and interval kept), not clamped. -/
theorem detectBPM_median (st : AudioManager.AState) (t : ℚ)
    (h2 : 2 ≤ (AudioManager.trailingHistory st t).length) :
    ((40 ≤ AudioManager.calculatedBPM st t ∧
        AudioManager.calculatedBPM st t ≤ 200) →
      (AudioManager.registerBeat st t).bpm = AudioManager.calculatedBPM st t ∧
      (AudioManager.registerBeat st t).sampleInterval =
        60000 / ((AudioManager.calculatedBPM st t : ℤ) : ℚ)) ∧
    (¬ (40 ≤ AudioManager.calculatedBPM st t ∧
        AudioManager.calculatedBPM st t ≤ 200) →
      (AudioManager.registerBeat st t).bpm = st.bpm ∧
      (AudioManager.registerBeat st t).sampleInterval = st.sampleInterval) := by
  constructor
  · intro hin
    unfold AudioManager.registerBeat
    dsimp only
    rw [if_pos h2, if_pos hin]
    exact ⟨rfl, rfl⟩
  · intro hout
    unfold AudioManager.registerBeat
    dsimp only
    rw [if_pos h2, if_neg hout]
    exact ⟨rfl, rfl⟩

/-- C9 witness: beat timestamps [0, 500, 1000, 1520] plus a beat at
1500 ms give sorted intervals [-20, 500, 500, 520], median 500 ms, hence
BPM 120 and sampling interval 500 ms — the single outlier interval does not
skew the result. -/
theorem detectBPM_median_witness :
    (AudioManager.registerBeat ⟨[0, 500, 1000, 1520], 1520, 120, 500⟩ 1500).bpm
        = 120 ∧
    (AudioManager.registerBeat
        ⟨[0, 500, 1000, 1520], 1520, 120, 500⟩ 1500).sampleInterval = 500 := by
  have h := (detectBPM_median ⟨[0, 500, 1000, 1520], 1520, 120, 500⟩ 1500
    (by decide)).1 (by decide)
  exact ⟨h.1.trans (by decide), h.2.trans (by decide)⟩

namespace ChordDetector

/-- A spectral peak of `findFundamentalFrequencies`. -/
structure Peak where
  frequency : ℚ
  amplitude : ℚ
  bin : ℕ
  prominence : ℚ
deriving DecidableEq

/-- The peak scan of `findFundamentalFrequencies` (lines scanning bins
`[2, N-3]`): 2-sided local maxima above amplitude 16, inside (50, 1500) Hz,
with prominence above 8. -/
def scanPeaks (frequencyData : List ℚ) (sampleRate : ℚ) : List Peak :=
  let bufferLength := frequencyData.length
  (List.range bufferLength).filterMap (fun i =>
    if 2 ≤ i ∧ i + 2 < bufferLength then
      let current := frequencyData.getD i 0
      let prev1 := frequencyData.getD (i - 1) 0
      let prev2 := frequencyData.getD (i - 2) 0
      let next1 := frequencyData.getD (i + 1) 0
      let next2 := frequencyData.getD (i + 2) 0
      if prev1 < current ∧ next1 < current ∧ prev2 < current ∧
          next2 < current ∧ 16 < current then
        let frequency := i * sampleRate / (bufferLength * 2)
        if 50 < frequency ∧ frequency < 1500 then
          let leftMin := min prev1 prev2
          let rightMin := min next1 next2
          let prominence := current - max leftMin rightMin
          if 8 < prominence then some ⟨frequency, current, i, prominence⟩
          else none
        else none
      else none
    else none)

/-- `peaks.sort((a, b) => b.amplitude - a.amplitude)`: stable descending. -/
def sortByAmplitudeDesc (peaks : List Peak) : List Peak :=
  peaks.insertionSort (fun p q => q.amplitude ≤ p.amplitude)

/-- The inner harmonic test of the fundamentals loop: scan the accepted
fundamentals in order; if the candidate's frequency ratio to one of them is
within 0.1 of an integer it is a harmonic (buffer unchanged); if the
inverse ratio is, the candidate replaces that entry; `none` means the
candidate is no harmonic of any entry. -/
def checkHarmonic : List Peak → Peak → Option (List Peak)
  | [], _ => none
  | f :: rest, peak =>
    let ratio := peak.frequency / f.frequency
    if |ratio - (jsRoundQ ratio : ℚ)| < 1/10 then some (f :: rest)
    else
      let inverseRatio := f.frequency / peak.frequency
      if |inverseRatio - (jsRoundQ inverseRatio : ℚ)| < 1/10 then
        some (peak :: rest)
      else (checkHarmonic rest peak).map (fun l => f :: l)

/-- One iteration of the fundamentals loop (the loop exits once 8
fundamentals are accepted; the list never shrinks, so a guarded fold is
equivalent). -/
def harmonicStep (fundamentals : List Peak) (peak : Peak) : List Peak :=
  if fundamentals.length < 8 then
    match checkHarmonic fundamentals peak with
    | some fs => fs
    | none => fundamentals ++ [peak]
  else fundamentals

/-- `fundamentals.sort((a, b) => a.frequency - b.frequency)`. -/
def sortByFrequencyAsc (peaks : List Peak) : List Peak :=
  peaks.insertionSort (fun p q => p.frequency ≤ q.frequency)

/-- `findFundamentalFrequencies`: scan peaks, filter harmonics greedily by
descending amplitude, return the surviving frequencies ascending. -/
def findFundamentalFrequencies (frequencyData : List ℚ) (sampleRate : ℚ) :
    List ℚ :=
  let peaks := scanPeaks frequencyData sampleRate
  let fundamentals := (sortByAmplitudeDesc peaks).foldl harmonicStep []
  (sortByFrequencyAsc fundamentals).map Peak.frequency

end ChordDetector

section HarmonicRejection

theorem harmonicStep_nil (p : ChordDetector.Peak) :
    ChordDetector.harmonicStep [] p = [p] := rfl

theorem harmonicStep_octave_up (a pa b pb : ℚ) (i j : ℕ) :
    ChordDetector.harmonicStep [⟨220, a, i, pa⟩] ⟨440, b, j, pb⟩ =
      [⟨220, a, i, pa⟩] := by
  have hr : |(440 : ℚ)/220 - ((jsRoundQ ((440 : ℚ)/220) : ℤ) : ℚ)| < (10 : ℚ)⁻¹ := by
    decide
  unfold ChordDetector.harmonicStep ChordDetector.checkHarmonic
  simp [hr]

theorem harmonicStep_octave_down (a pa b pb : ℚ) (i j : ℕ) :
    ChordDetector.harmonicStep [⟨440, b, j, pb⟩] ⟨220, a, i, pa⟩ =
      [⟨220, a, i, pa⟩] := by
  have hr1 : ¬ |(220 : ℚ)/440 - ((jsRoundQ ((220 : ℚ)/440) : ℤ) : ℚ)| < (10 : ℚ)⁻¹ := by
    decide
  have hr2 : |(440 : ℚ)/220 - ((jsRoundQ ((440 : ℚ)/220) : ℤ) : ℚ)| < (10 : ℚ)⁻¹ := by
    decide
  unfold ChordDetector.harmonicStep ChordDetector.checkHarmonic
  simp [hr1, hr2]

/-- C7: for every spectrum whose accepted peaks are exactly one at 220 Hz
and one at 440 Hz (any amplitudes and prominences), the extractor returns
exactly the single fundamental 220 Hz — whichever of the two peaks is the
stronger. -/
theorem harmonic_rejection (data : List ℚ) (SR : ℚ) (a b pa pb : ℚ) (i j : ℕ)
    (hpeaks : ChordDetector.scanPeaks data SR =
      [⟨220, a, i, pa⟩, ⟨440, b, j, pb⟩]) :
    ChordDetector.findFundamentalFrequencies data SR = [220] := by
  unfold ChordDetector.findFundamentalFrequencies
  rw [hpeaks]
  dsimp only
  by_cases hab : (⟨440, b, j, pb⟩ : ChordDetector.Peak).amplitude ≤
      (⟨220, a, i, pa⟩ : ChordDetector.Peak).amplitude
  · have hsort : ChordDetector.sortByAmplitudeDesc
        [⟨220, a, i, pa⟩, ⟨440, b, j, pb⟩] =
        [⟨220, a, i, pa⟩, ⟨440, b, j, pb⟩] := by
      unfold ChordDetector.sortByAmplitudeDesc
      simp [List.insertionSort, List.orderedInsert, hab]
    rw [hsort]
    simp only [List.foldl, harmonicStep_nil, harmonicStep_octave_up]
    rfl
  · have hsort : ChordDetector.sortByAmplitudeDesc
        [⟨220, a, i, pa⟩, ⟨440, b, j, pb⟩] =
        [⟨440, b, j, pb⟩, ⟨220, a, i, pa⟩] := by
      unfold ChordDetector.sortByAmplitudeDesc
      simp [List.insertionSort, List.orderedInsert, hab]
    rw [hsort]
    simp only [List.foldl, harmonicStep_nil, harmonicStep_octave_down]
    rfl

/-- C7 witness: a 16-bin spectrum at sample rate 7040/3 Hz whose only
accepted peaks sit at bins 3 (220 Hz, amplitude 100) and 6 (440 Hz,
amplitude 90); the extractor keeps only 220 Hz. -/
theorem harmonic_rejection_witness :
    ChordDetector.findFundamentalFrequencies
      [0, 0, 0, 100, 0, 0, 90, 0, 0, 0, 0, 0, 0, 0, 0, 0] (7040/3) = [220] :=
  harmonic_rejection
    [0, 0, 0, 100, 0, 0, 90, 0, 0, 0, 0, 0, 0, 0, 0, 0] (7040/3)
    100 90 100 90 3 6 (by decide)

end HarmonicRejection

/-- Largest element of a (non-empty, here 12-element) list, as
`Math.max(...xs)`. -/
def listMax (l : List ℚ) : ℚ := l.foldl max (l.headD 0)

namespace BrowserChordDetector

/-- The `chromaNotes` field: the same 12-name literal as `noteNames`. -/
def chromaNotes : List String := ChordDetector.noteNames

/-- An entry of the browser detector's `chromaBuffer`. -/
structure BBuf where
  chord : String
  confidence : ℝ
  timestamp : ℚ

/-- A scored chord candidate (the display-only `fullNotes` augmentation is
omitted). -/
structure BCand where
  name : String
  confidence : ℝ
  notes : List String

/-- What `detectChord`/`stabilizeChord` report downstream. -/
structure BRep where
  name : String
  confidence : ℝ
  notes : List String
  stable : Bool

/-- The mutable fields of `BrowserChordDetector`. -/
structure BState where
  previousChroma : List ℚ
  consecutiveChanges : ℤ
  currentChord : Option String
  chordConfidence : ℝ
  chordStability : ℤ
  chromaBuffer : List BBuf

/-- One bin of the `calculateChromaFromFrequency` loop: accumulate the
bin's normalized amplitude into the chroma slot of its pitch class (the
index is always in [0, 12) on the 65–1000 Hz band; out-of-range writes
would fall outside the array and are modelled as no-ops). -/
noncomputable def chromaStep (frequencyData : List ℚ) (sampleRate : ℚ)
    (vec : List ℚ) (i : ℕ) : List ℚ :=
  let frequency := (i : ℚ) * sampleRate / (frequencyData.length * 2)
  let amplitude := frequencyData.getD i 0 / 255
  if 65 < frequency ∧ frequency < 1000 then
    let noteIndex := frequencyToChromaIndex ((frequency : ℚ) : ℝ)
    if noteIndex ≠ -1 then
      vec.set noteIndex.toNat (vec.getD noteIndex.toNat 0 + amplitude)
    else vec
  else vec

/-- `calculateChromaFromFrequency`: fold every bin into the chroma vector,
then normalize by the maximum. -/
noncomputable def calculateChromaFromFrequency (frequencyData : List ℚ)
    (sampleRate : ℚ) : List ℚ :=
  let chromaVector := (List.range frequencyData.length).foldl
    (chromaStep frequencyData sampleRate) (List.replicate 12 0)
  let maxValue := listMax chromaVector
  if 0 < maxValue then chromaVector.map (fun v => v / maxValue)
  else chromaVector

/-- The 12-term accumulation loops of the cosine computations. -/
def sumBy12 (f : ℕ → ℚ) : ℚ := (List.range 12).foldl (fun acc i => acc + f i) 0

/-- `detectSpectralChange`: cosine distance to the previous chroma drives
the consecutive-change counter; returns the updated state and whether at
least `minConsecutiveChanges = 3` changes accumulated. -/
noncomputable def detectSpectralChange (st : BState) (currentChroma : List ℚ) :
    BState × Bool :=
  let dotProduct := sumBy12 (fun i =>
    currentChroma.getD i 0 * st.previousChroma.getD i 0)
  let magSqCurrent := sumBy12 (fun i =>
    currentChroma.getD i 0 * currentChroma.getD i 0)
  let magSqPrevious := sumBy12 (fun i =>
    st.previousChroma.getD i 0 * st.previousChroma.getD i 0)
  let magnitudeCurrent : ℝ := Real.sqrt ((magSqCurrent : ℚ) : ℝ)
  let magnitudePrevious : ℝ := Real.sqrt ((magSqPrevious : ℚ) : ℝ)
  let similarity : ℝ :=
    if 0 < magnitudeCurrent ∧ 0 < magnitudePrevious then
      ((dotProduct : ℚ) : ℝ) / (magnitudeCurrent * magnitudePrevious)
    else 0
  let change : ℝ := 1 - similarity
  let cc : ℤ :=
    if (0.15 : ℝ) < change then st.consecutiveChanges + 1
    else max 0 (st.consecutiveChanges - 1)
  ({ st with consecutiveChanges := cc, previousChroma := currentChroma },
   decide (3 ≤ cc))

/-- `findDominantNotes`: adaptive threshold from the third-strongest bin,
at most 6 notes, strongest kept. -/
def findDominantNotes (normalizedChroma : List ℚ) : List String :=
  let sortedChroma := normalizedChroma.insertionSort (fun a b => b ≤ a)
  let adaptiveThreshold := max (1/4 : ℚ) (sortedChroma.getD 2 0 * (4/5))
  let dominantIndices := (List.range normalizedChroma.length).filter
    (fun i => decide (adaptiveThreshold ≤ normalizedChroma.getD i 0))
  let limited :=
    if 6 < dominantIndices.length then
      (dominantIndices.insertionSort (fun i j =>
        normalizedChroma.getD j 0 ≤ normalizedChroma.getD i 0)).take 6
    else dominantIndices
  limited.map (fun i => chromaNotes.getD i ("?"))

/-- The browser's own `chordPatterns` table of `detectChordsFromNotes`
(major and minor triads). -/
def chordPatternsB : List (String × String) :=
  [ ("C,E,G", "C"), ("C#,F,G#", "C#"), ("D,F#,A", "D"), ("D#,G,A#", "D#"),
    ("E,G#,B", "E"), ("F,A,C", "F"), ("F#,A#,C#", "F#"), ("G,B,D", "G"),
    ("G#,C,D#", "G#"), ("A,C#,E", "A"), ("A#,D,F", "A#"), ("B,D#,F#", "B"),
    ("C,Eb,G", "Cm"), ("C#,E,G#", "C#m"), ("D,F,A", "Dm"), ("D#,F#,A#", "D#m"),
    ("E,G,B", "Em"), ("F,Ab,C", "Fm"), ("F#,A,C#", "F#m"), ("G,Bb,D", "Gm"),
    ("G#,B,D#", "G#m"), ("A,C,E", "Am"), ("A#,C#,F", "A#m"), ("B,D,F#", "Bm") ]

/-- `detectChordsFromNotes`: exact joined-key match, else all entries
sharing at least two notes. -/
def detectChordsFromNotes (notes : List String) : List String :=
  let noteString := String.intercalate (",") notes
  match chordPatternsB.lookup noteString with
  | some name => [name]
  | none =>
    chordPatternsB.filterMap (fun entry =>
      let patternNotes := splitComma entry.1
      let matchingNotes := notes.filter (fun n => n ∈ patternNotes)
      if 2 ≤ matchingNotes.length then some entry.2 else none)

/-- `getChordNotes` (the same literal table as the duplicated stabilizer's). -/
def getChordNotes (chordName : String) : List String :=
  RealTimeChordDetector.getChordNotes chordName

/-- `calculateChromaMatch`: cosine similarity of the observed chroma with
the chord's binary ideal chroma, clamped at 0. -/
noncomputable def calculateChromaMatch (chordNotes : List String)
    (chromaVector : List ℚ) : ℝ :=
  let idealChroma := chordNotes.foldl (fun (vec : List ℚ) note =>
    match List.indexOf? note chromaNotes with
    | some idx => vec.set idx 1
    | none => vec) (List.replicate 12 0)
  let dotProduct := sumBy12 (fun i =>
    chromaVector.getD i 0 * idealChroma.getD i 0)
  let magSqActual := sumBy12 (fun i =>
    chromaVector.getD i 0 * chromaVector.getD i 0)
  let magSqIdeal := sumBy12 (fun i =>
    idealChroma.getD i 0 * idealChroma.getD i 0)
  let magnitudeActual : ℝ := Real.sqrt ((magSqActual : ℚ) : ℝ)
  let magnitudeIdeal : ℝ := Real.sqrt ((magSqIdeal : ℚ) : ℝ)
  if magnitudeActual = 0 ∨ magnitudeIdeal = 0 then 0
  else max 0 (((dotProduct : ℚ) : ℝ) / (magnitudeActual * magnitudeIdeal))

/-- `identifyChord`: score each candidate from `detectChordsFromNotes` by
`0.7·chromaMatch + 0.3·noteMatch` capped at 0.95; best above the 0.75 gate
wins (its `try/catch` has nothing to throw here; display `fullNotes`
omitted). -/
noncomputable def identifyChord (dominantNotes : List String)
    (chromaVector : List ℚ) : Option BCand :=
  let detectedChords := detectChordsFromNotes dominantNotes
  if detectedChords.isEmpty then none
  else
    let chordScores := detectedChords.map (fun chordName =>
      let chordNotes := getChordNotes chordName
      let chromaMatch := calculateChromaMatch chordNotes chromaVector
      let matchingNotes := dominantNotes.filter (fun note => note ∈ chordNotes)
      let noteMatch : ℝ := (matchingNotes.length : ℝ) /
        ((max chordNotes.length dominantNotes.length : ℕ) : ℝ)
      let confidence : ℝ := min (chromaMatch * 0.7 + noteMatch * 0.3) 0.95
      (⟨chordName, confidence, dominantNotes⟩ : BCand))
    let sorted := chordScores.insertionSort (fun x y => y.confidence ≤ x.confidence)
    let bestChord := sorted.headD ⟨"", 0, []⟩
    if (0.75 : ℝ) ≤ bestChord.confidence then some bestChord else none

/-- `addToChromaBuffer` (browser copy; cap 8, oldest evicted). -/
def addToChromaBuffer (buf : List BBuf) (chord : BCand) (t : ℚ) : List BBuf :=
  let b := buf ++ [⟨chord.name, chord.confidence, t⟩]
  if 8 < b.length then b.tail else b

/-- `analyzeChromaForChord`: renormalize, pick dominant notes, identify,
and on an accepted candidate record its vote. -/
noncomputable def analyzeChromaForChord (st : BState) (chromaVector : List ℚ)
    (currentTime : ℚ) : BState × Option BCand :=
  let maxValue := listMax chromaVector
  if maxValue = 0 then (st, none)
  else
    let normalizedChroma := chromaVector.map (fun v => v / maxValue)
    let dominantNotes := findDominantNotes normalizedChroma
    if dominantNotes.length < 2 then (st, none)
    else
      match identifyChord dominantNotes normalizedChroma with
      | some chord =>
        if (0.75 : ℝ) ≤ chord.confidence then
          ({ st with chromaBuffer := addToChromaBuffer st.chromaBuffer chord currentTime },
           some chord)
        else (st, none)
      | none => (st, none)

/-- The vote window of the browser stabilizer. -/
def recentBuffer (buf : List BBuf) (t : ℚ) : List BBuf :=
  buf.filter (fun item => decide (t - item.timestamp < 1000))

/-- Summed confidences of a buffer slice. -/
noncomputable def bufScore (buf : List BBuf) : ℝ :=
  buf.foldl (fun s item => s + item.confidence) 0

/-- `stabilizeChord` (browser copy of the hysteresis step). -/
noncomputable def stabilizeChord (st : BState) (newChord : BCand) (t : ℚ) :
    BState × BRep :=
  let currentChordScore := bufScore ((recentBuffer st.chromaBuffer t).filter
    (fun item => item.chord == newChord.name))
  let totalScore := bufScore (recentBuffer st.chromaBuffer t)
  if totalScore = 0 then
    (st, ⟨newChord.name, newChord.confidence, newChord.notes, false⟩)
  else if st.currentChord = some newChord.name then
    ({ st with chordStability := min (st.chordStability + 1) 20,
               chordConfidence := max st.chordConfidence newChord.confidence },
     ⟨newChord.name, newChord.confidence, newChord.notes, false⟩)
  else if (3/5 : ℝ) ≤ currentChordScore / totalScore then
    ({ st with currentChord := some newChord.name, chordStability := 1,
               chordConfidence := newChord.confidence, consecutiveChanges := 0 },
     ⟨newChord.name, newChord.confidence, newChord.notes, false⟩)
  else
    (st, ⟨st.currentChord.getD (""), st.chordConfidence,
      (match st.currentChord with
       | some c => getChordNotes c
       | none => []), true⟩)

/-- The trailing return of `detectChord`: re-report the held chord when one
is stabilized, else nothing. -/
noncomputable def stableReturn (st : BState) : BState × Option BRep :=
  match st.currentChord with
  | some c =>
    if 5 ≤ st.chordStability then
      (st, some ⟨c, st.chordConfidence, getChordNotes c, true⟩)
    else (st, none)
  | none => (st, none)

/-- `detectChord`: the synchronous per-tick entry point of the browser
detector (its `try/catch` is modelled by totality: every path returns). -/
noncomputable def detectChord (st : BState) (frequencyData : List ℚ)
    (sampleRate currentTime : ℚ) : BState × Option BRep :=
  let chromaVector := calculateChromaFromFrequency frequencyData sampleRate
  match detectSpectralChange st chromaVector with
  | (st1, hasSignificantChange) =>
    if hasSignificantChange = true ∨ st1.chordStability < 5 then
      match analyzeChromaForChord st1 chromaVector currentTime with
      | (st2, some chord) =>
        if (0.75 : ℝ) ≤ chord.confidence then
          match stabilizeChord st2 chord currentTime with
          | (st3, rep) => (st3, some rep)
        else stableReturn st2
      | (st2, none) => stableReturn st2
    else stableReturn st1

end BrowserChordDetector

section ZeroSpectrum

theorem getD_of_all_zero {l : List ℚ} (hz : ∀ x ∈ l, x = 0) (i : ℕ) :
    l.getD i 0 = 0 := by
  rcases Nat.lt_or_ge i l.length with h | h
  · rw [List.getD_eq_getElem l 0 h]
    exact hz _ (List.getElem_mem h)
  · exact List.getD_eq_default l 0 h

theorem set_getD_self (v : List ℚ) (k : ℕ) : v.set k (v.getD k 0) = v := by
  induction v generalizing k with
  | nil => rfl
  | cons a t ih =>
    cases k with
    | zero => simp [List.getD]
    | succ n =>
      simp only [List.getD_cons_succ, List.set_cons_succ]
      rw [ih n]

theorem foldl_fixed {α β : Type} (f : β → α → β) (v : β) (l : List α)
    (hf : ∀ b a, a ∈ l → f b a = b) : l.foldl f v = v := by
  induction l generalizing v with
  | nil => rfl
  | cons a t ih =>
    rw [List.foldl_cons, hf v a (List.mem_cons_self a t)]
    exact ih v (fun b x hx => hf b x (List.mem_cons_of_mem a hx))

/-- An all-zero spectrum folds into the all-zero chroma vector. -/
theorem calculateChroma_zero (data : List ℚ) (SR : ℚ)
    (hz : ∀ x ∈ data, x = 0) :
    BrowserChordDetector.calculateChromaFromFrequency data SR =
      List.replicate 12 0 := by
  have hstep : ∀ (vec : List ℚ) (i : ℕ), i ∈ List.range data.length →
      BrowserChordDetector.chromaStep data SR vec i = vec := by
    intro vec i _
    unfold BrowserChordDetector.chromaStep
    dsimp only
    rw [getD_of_all_zero hz i, show (0 : ℚ) / 255 = 0 by norm_num]
    split
    · split
      · rw [add_zero, set_getD_self]
      · rfl
    · rfl
  unfold BrowserChordDetector.calculateChromaFromFrequency
  dsimp only
  rw [foldl_fixed _ _ _ hstep]
  rw [if_neg (by decide : ¬ (0 : ℚ) < listMax (List.replicate 12 0))]

end ZeroSpectrum

theorem analyzeChroma_zero (st : BrowserChordDetector.BState) (t : ℚ) :
    BrowserChordDetector.analyzeChromaForChord st (List.replicate 12 0) t =
      (st, none) := by
  unfold BrowserChordDetector.analyzeChromaForChord
  dsimp only
  rw [if_pos (by decide : listMax (List.replicate 12 0) = 0)]

theorem stableReturn_snd_none (st : BrowserChordDetector.BState)
    (h : st.currentChord = none ∨ st.chordStability < 5) :
    (BrowserChordDetector.stableReturn st).2 = none := by
  unfold BrowserChordDetector.stableReturn
  cases hcc : st.currentChord with
  | none => rfl
  | some c =>
    dsimp only
    rcases h with h | h
    · rw [hcc] at h
      exact absurd h (by simp)
    · rw [if_neg (show ¬ 5 ≤ st.chordStability by omega)]

theorem detectSpectralChange_fields (st : BrowserChordDetector.BState)
    (c : List ℚ) :
    (BrowserChordDetector.detectSpectralChange st c).1.currentChord =
        st.currentChord ∧
    (BrowserChordDetector.detectSpectralChange st c).1.chordStability =
        st.chordStability :=
  ⟨rfl, rfl⟩

theorem scanPeaks_zero (data : List ℚ) (SR : ℚ) (hz : ∀ x ∈ data, x = 0) :
    ChordDetector.scanPeaks data SR = [] := by
  unfold ChordDetector.scanPeaks
  rw [List.filterMap_eq_nil]
  intro i _
  dsimp only
  split
  · rw [getD_of_all_zero hz i, getD_of_all_zero hz (i - 1),
      getD_of_all_zero hz (i - 2), getD_of_all_zero hz (i + 1),
      getD_of_all_zero hz (i + 2)]
    rw [if_neg (by simp)]
  · rfl

/-- C8 (amended): on an all-zero spectrum, the peak-based pipeline of
`chord-detector.js` finds no fundamentals and reports no chord, and the
chroma detector's tick returns null provided no previously stabilized chord
is held (a held stable chord is re-reported instead — see the
counterexample); no path throws (every branch of the model is total). -/
theorem zero_spectrum_no_chord (st : BrowserChordDetector.BState)
    (data : List ℚ) (SR t : ℚ) (hz : ∀ x ∈ data, x = 0)
    (hnc : st.currentChord = none ∨ st.chordStability < 5) :
    (BrowserChordDetector.detectChord st data SR t).2 = none ∧
    ChordDetector.findFundamentalFrequencies data SR = [] ∧
    ChordDetector.identifyChordWithTemporalAnalysis
      ((ChordDetector.findFundamentalFrequencies data SR).map
        (fun f => ⟨(ChordDetector.frequencyToNoteWithOctave ((f : ℚ) : ℝ)).1,
          (ChordDetector.frequencyToNoteWithOctave ((f : ℚ) : ℝ)).2⟩)) =
      none := by
  have hfund : ChordDetector.findFundamentalFrequencies data SR = [] := by
    unfold ChordDetector.findFundamentalFrequencies
    rw [scanPeaks_zero data SR hz]
    rfl
  refine ⟨?_, hfund, ?_⟩
  · have hchroma := calculateChroma_zero data SR hz
    unfold BrowserChordDetector.detectChord
    rw [hchroma]
    have hfields := detectSpectralChange_fields st (List.replicate 12 0)
    have hnc1 : (BrowserChordDetector.detectSpectralChange st
          (List.replicate 12 0)).1.currentChord = none ∨
        (BrowserChordDetector.detectSpectralChange st
          (List.replicate 12 0)).1.chordStability < 5 := by
      rcases hnc with h | h
      · exact Or.inl (hfields.1.trans h)
      · refine Or.inr ?_
        rw [hfields.2]
        exact h
    dsimp only
    split
    · rw [analyzeChroma_zero _ t]
      exact stableReturn_snd_none _ hnc1
    · exact stableReturn_snd_none _ hnc1
  · rw [hfund]
    rfl

/-- C8 witness: a fresh detector state on a 4-bin all-zero spectrum
reports nothing from either pipeline. -/
theorem zero_spectrum_no_chord_witness :
    (BrowserChordDetector.detectChord
      ⟨List.replicate 12 0, 0, none, 0, 0, []⟩
      (List.replicate 4 0) 44100 0).2 = none ∧
    ChordDetector.findFundamentalFrequencies (List.replicate 4 0) 44100 = [] ∧
    ChordDetector.identifyChordWithTemporalAnalysis
      ((ChordDetector.findFundamentalFrequencies (List.replicate 4 0) 44100).map
        (fun f => ⟨(ChordDetector.frequencyToNoteWithOctave ((f : ℚ) : ℝ)).1,
          (ChordDetector.frequencyToNoteWithOctave ((f : ℚ) : ℝ)).2⟩)) =
      none :=
  zero_spectrum_no_chord ⟨List.replicate 12 0, 0, none, 0, 0, []⟩
    (List.replicate 4 0) 44100 0 (by simp) (Or.inl rfl)

theorem detectSpectralChange_zero_prev (st : BrowserChordDetector.BState)
    (hprev : st.previousChroma = List.replicate 12 0) :
    BrowserChordDetector.detectSpectralChange st (List.replicate 12 0) =
      ({ st with consecutiveChanges := st.consecutiveChanges + 1,
                 previousChroma := List.replicate 12 0 },
       decide (3 ≤ st.consecutiveChanges + 1)) := by
  unfold BrowserChordDetector.detectSpectralChange
  rw [hprev]
  dsimp only
  have h0 : BrowserChordDetector.sumBy12 (fun i =>
      (List.replicate 12 (0 : ℚ)).getD i 0 *
        (List.replicate 12 (0 : ℚ)).getD i 0) = 0 := by decide
  rw [h0]
  rw [show (((0 : ℚ) : ℝ)) = 0 by norm_num, Real.sqrt_zero]
  rw [if_neg (show ¬ ((0 : ℝ) < 0 ∧ (0 : ℝ) < 0) by simp)]
  rw [if_pos (show (0.15 : ℝ) < 1 - 0 by norm_num)]

/-- The held-stable-chord state of the C8 counterexample. -/
noncomputable def stHeld : BrowserChordDetector.BState :=
  ⟨List.replicate 12 0, 0, some ("C"), 0.8, 5, []⟩

/-- C8 counterexample: on an all-zero spectrum a state holding the
stabilized chord "C" (stability 5) re-reports "C" instead of returning
null, so the tick's observable output is not "no chord". -/
theorem zero_spectrum_stable_chord_counterexample :
    (BrowserChordDetector.detectChord stHeld (List.replicate 4 0) 44100 0).2 =
      some ⟨"C", 0.8, BrowserChordDetector.getChordNotes ("C"), true⟩ := by
  have hchroma := calculateChroma_zero (List.replicate 4 0) 44100 (by simp)
  have hdet := detectSpectralChange_zero_prev stHeld rfl
  unfold BrowserChordDetector.detectChord
  rw [hchroma]
  dsimp only
  rw [hdet]
  dsimp only
  split
  · next hcond => exact absurd hcond (by simp [stHeld])
  · rfl
